import Mathlib

/-!
Shallow embedding of the picofp library (src/Maybe.ts, src/Result.ts,
src/index.ts): two generic two-variant containers, `Maybe` (Some / None)
and `Result` (Ok / Err), with their combinators, and theorems settling the
behavioral claims about them.

Modelling conventions:
* Each TypeScript class hierarchy (abstract base with exactly two concrete
  subclasses) becomes a Lean inductive with two constructors; a method
  implemented separately in each subclass becomes one Lean function whose
  two match arms are the two subclass bodies.
* A thrown JavaScript `Error` is modelled by `Except JSError`, where
  `JSError` carries the message string passed to the `Error` constructor.
* The host strict-equality operator `===` used by `contains` is modelled by
  a `BEq` instance; `JSVal` below instantiates it with an equality that
  distinguishes reference identity from structural content, as `===` does
  for objects.
* `e.toString()` on an error payload is modelled by an explicit rendering
  function argument `toStr`.
-/

namespace Picofp

/-- A thrown JavaScript `Error` object: we keep only its message string. -/
structure JSError where
  message : String
deriving DecidableEq, Repr

/-- `Maybe<T>` from src/Maybe.ts: the subclass `Some<T>` holds `value : T`,
the subclass `None` holds nothing. The readonly `__tag` field is exactly the
constructor choice. -/
inductive Maybe (α : Type) where
  | Some (value : α)
  | None
deriving DecidableEq, Repr

/-- `MaybeMatcher<T,U,V>` from src/Maybe.ts: the two required branch
handlers passed to `Maybe.match`. -/
structure MaybeMatcher (α β γ : Type) where
  Some : α → β
  None : Unit → γ

namespace Maybe

variable {α β γ : Type}

/-- `Maybe.isSome`: true exactly when the tag is the Some tag. -/
def isSome : Maybe α → Bool
  | Some _ => true
  | None   => false

/-- `Maybe.isNone`: the source computes it as `!this.isSome()`. -/
def isNone (m : Maybe α) : Bool := !m.isSome

/-- `Maybe.match` (renamed: `match` is a Lean keyword): dispatch on the
variant, returning the union `U | V` of the two branch result types,
modelled as a sum. -/
def matchWith (m : Maybe α) (matcher : MaybeMatcher α β γ) : β ⊕ γ :=
  match m with
  | Some v => Sum.inl (matcher.Some v)
  | None   => Sum.inr (matcher.None ())

/-- `contains`: `Some` compares `this.value === value`; `None` returns
false. The `BEq` instance models the host `===`. -/
def contains [BEq α] : Maybe α → α → Bool
  | Some v, x => v == x
  | None,   _ => false

/-- `unwrap`: `Some` returns the value; `None` throws
`new Error("Unwrap called on None value")`. -/
def unwrap : Maybe α → Except JSError α
  | Some v => Except.ok v
  | None   => Except.error ⟨"Unwrap called on None value"⟩

/-- `unwrapOr`: `Some` ignores the default; `None` returns it. -/
def unwrapOr : Maybe α → α → α
  | Some v, _ => v
  | None,   d => d

/-- `map`: `Some` wraps `fn(this.value)` in a new `Some`; `None` returns a
new `None` without invoking the function. -/
def map (m : Maybe α) (fn : α → β) : Maybe β :=
  match m with
  | Some v => Some (fn v)
  | None   => None

/-- `mapOr`: `Some` wraps `fn(this.value)` in a new `Some`; `None` wraps
the default in a new `Some` without invoking the function. -/
def mapOr (m : Maybe α) (fn : α → β) (def_ : β) : Maybe β :=
  match m with
  | Some v => Some (fn v)
  | None   => Some def_

/-- `flatMap`: `Some` returns `fn(this.value)` directly (no extra
wrapping); `None` returns a new `None` without invoking the function. -/
def flatMap (m : Maybe α) (fn : α → Maybe β) : Maybe β :=
  match m with
  | Some v => fn v
  | None   => None

end Maybe

/-- `Result<T,E>` from src/Result.ts: the subclass `Ok<T,E>` holds
`value : T`, the subclass `Err<T,E>` holds `error : E`. -/
inductive Result (α ε : Type) where
  | Ok (value : α)
  | Err (error : ε)
deriving DecidableEq, Repr

/-- `ResultMatcher<T,U,E,F>` from src/Result.ts: the two required branch
handlers passed to `Result.match`. -/
structure ResultMatcher (α β ε φ : Type) where
  Ok : α → β
  Err : ε → φ

namespace Result

variable {α β γ ε φ : Type}

/-- `Result.isOk`: true exactly when the tag is the Ok tag. -/
def isOk : Result α ε → Bool
  | Ok _  => true
  | Err _ => false

/-- `Result.isErr`: the source computes it as `!this.isOk()`. -/
def isErr (r : Result α ε) : Bool := !r.isOk

/-- `Result.match` (renamed: `match` is a Lean keyword). The source is an
`if (this.isOk())` branch, an `else if (this.isErr())` branch, and an
implicit fall-through returning `undefined`; the fall-through is modelled
by the `Option.none` result, and the `else if` guard is kept explicitly so
its reachability can be analysed. -/
def matchWith (r : Result α ε) (matcher : ResultMatcher α β ε φ) :
    Option (β ⊕ φ) :=
  match r with
  | Ok v  => some (Sum.inl (matcher.Ok v))
  | Err e =>
      if (Err e : Result α ε).isErr then some (Sum.inr (matcher.Err e))
      else none

/-- `contains`: the abstract signature takes `T | E` (a sum); `Ok` compares
the candidate against `this.value` with `===`, `Err` compares it against
`this.error`. The TypeScript subclass signatures restrict `Ok.contains` to
`T` and `Err.contains` to `E`, so a candidate from the other channel is not
comparable; those arms return false. -/
def contains [BEq α] [BEq ε] : Result α ε → α ⊕ ε → Bool
  | Ok v,  Sum.inl x => v == x
  | Err e, Sum.inr x => e == x
  | _, _ => false

/-- `Result.ok`: `Ok` yields `new Some(this.value)`; `Err` yields
`new None()`. -/
def ok : Result α ε → Maybe α
  | Ok v  => Maybe.Some v
  | Err _ => Maybe.None

/-- `Result.err`: `Ok` yields `new None()`; `Err` yields
`new Some(this.error)`. -/
def err : Result α ε → Maybe ε
  | Ok _  => Maybe.None
  | Err e => Maybe.Some e

/-- `unwrap`: `Ok` returns the value; `Err` throws
`new Error(this.error.toString())`. The rendering `toString` is the
explicit argument `toStr`. -/
def unwrap (r : Result α ε) (toStr : ε → String) : Except JSError α :=
  match r with
  | Ok v  => Except.ok v
  | Err e => Except.error ⟨toStr e⟩

/-- `unwrapOr`: `Ok` ignores the default; `Err` returns it. -/
def unwrapOr : Result α ε → α → α
  | Ok v,  _ => v
  | Err _, d => d

/-- `map`: `Ok` wraps `fn(this.value)` in a new `Ok`; `Err` re-wraps the
same error in a new `Err` without invoking the function. -/
def map (r : Result α ε) (fn : α → β) : Result β ε :=
  match r with
  | Ok v  => Ok (fn v)
  | Err e => Err e

/-- `mapOr`: `Ok` wraps `fn(this.value)` in a new `Ok`; `Err` wraps the
default in a new `Ok` without invoking the function. -/
def mapOr (r : Result α ε) (fn : α → β) (def_ : β) : Result β ε :=
  match r with
  | Ok v  => Ok (fn v)
  | Err _ => Ok def_

/-- `mapErr`: `Ok` re-wraps the same value in a new `Ok` without invoking
the function; `Err` wraps `fn(this.error)` in a new `Err`. -/
def mapErr (r : Result α ε) (fn : ε → φ) : Result α φ :=
  match r with
  | Ok v  => Ok v
  | Err e => Err (fn e)

/-- `flatMap`: `Ok` returns `fn(this.value)` directly; `Err` re-wraps the
same error in a new `Err` without invoking the function. -/
def flatMap (r : Result α ε) (fn : α → Result β ε) : Result β ε :=
  match r with
  | Ok v  => fn v
  | Err e => Err e

end Result

/-- Modelled from the spec: the free construction helper `some` is
re-exported by src/index.ts from './Maybe', but its definition is absent
from the provided sources; per spec section 4.1 it produces Present from a
given value, as an ergonomic alternative to direct variant construction. -/
def some {α : Type} (v : α) : Maybe α := Maybe.Some v

/-- Modelled from the spec: the free construction helper `none` is
re-exported by src/index.ts from './Maybe', but its definition is absent
from the provided sources; per spec section 4.1 it produces Absent with no
argument (the `Unit` argument models the nullary call). -/
def none {α : Type} (_ : Unit) : Maybe α := Maybe.None

/-- Modelled from the spec: the free construction helper `ok` is
re-exported by src/index.ts from './Result', but its definition is absent
from the provided sources; per spec section 4.2 it produces Success from a
given value. -/
def ok {α ε : Type} (v : α) : Result α ε := Result.Ok v

/-- Modelled from the spec: the free construction helper `err` is
re-exported by src/index.ts from './Result', but its definition is absent
from the provided sources; per spec section 4.2 it produces Failure from a
given error value. -/
def err {α ε : Type} (e : ε) : Result α ε := Result.Err e

/-- A model of host (JavaScript) values on which strict equality `===` and
structural equality genuinely differ: a primitive number is compared by
value, an object carries a reference identity `ref` and structural
`content`, and `===` compares objects by reference only. -/
inductive JSVal where
  | num (n : Int)
  | obj (ref : Nat) (content : List Int)
deriving DecidableEq, Repr

/-- Host strict equality `===`: numbers by value, objects by reference. -/
def jsStrictEq : JSVal → JSVal → Bool
  | JSVal.num a,   JSVal.num b   => a == b
  | JSVal.obj r _, JSVal.obj s _ => r == s
  | _, _ => false

/-- Structural equality: numbers by value, objects by content. -/
def jsStructEq : JSVal → JSVal → Bool
  | JSVal.num a,   JSVal.num b   => a == b
  | JSVal.obj _ c, JSVal.obj _ d => c == d
  | _, _ => false

/-- The host equality the library observes through `==` is `===`. -/
instance : BEq JSVal := ⟨jsStrictEq⟩

end Picofp

namespace Picofp

/-- Claim C1: `Some v |>.unwrap` returns `v` and `Ok v |>.unwrap` returns
`v`; `None.unwrap` always fails with the designated unwrap error;
`Err e |>.unwrap` always fails and the failure it signals carries the
textual representation of `e`: its message contains the rendered form
`toStr e`. -/
theorem c1_unwrap (α ε : Type) (v : α) (e : ε) (toStr : ε → String) :
    (Maybe.Some v).unwrap = Except.ok v ∧
    (Maybe.None : Maybe α).unwrap =
      Except.error ⟨"Unwrap called on None value"⟩ ∧
    (Result.Ok v : Result α ε).unwrap toStr = Except.ok v ∧
    ∃ msg : JSError,
      (Result.Err e : Result α ε).unwrap toStr = Except.error msg ∧
      ∃ p s : String, msg.message = p ++ toStr e ++ s := by
  refine ⟨rfl, rfl, rfl, ⟨toStr e⟩, rfl, "", "", ?_⟩
  simp

/-- Claim C2: `mapOr` on the empty variant wraps the default inside the
container: `None.mapOr f d` unwraps to `d` and `Err e |>.mapOr f d`
unwraps to `d`; the is-present/is-success test of the result is true
regardless of the receiver's variant; and on the empty variant the result
does not depend on the supplied function (the function is not invoked). -/
theorem c2_mapOr_empty (α β ε : Type) (f g : α → β) (d : β) (e : ε)
    (toStr : ε → String) (m : Maybe α) (r : Result α ε) :
    ((Maybe.None : Maybe α).mapOr f d).unwrap = Except.ok d ∧
    ((Result.Err e : Result α ε).mapOr f d).unwrap toStr = Except.ok d ∧
    (m.mapOr f d).isSome = true ∧
    (r.mapOr f d).isOk = true ∧
    (Maybe.None : Maybe α).mapOr f d = Maybe.None.mapOr g d ∧
    (Result.Err e : Result α ε).mapOr f d = (Result.Err e).mapOr g d := by
  refine ⟨rfl, rfl, ?_, ?_, rfl, rfl⟩
  · cases m <;> rfl
  · cases r <;> rfl

/-- Claim C3: `Some v |>.map f` is `Some (f v)` and unwraps to `f v`;
`None.map f` is `None` and does not depend on `f` (never invoked);
`Err e |>.map f` passes the error through unchanged, so a chain of `map`
calls on a Failure stays a Failure carrying the original error. -/
theorem c3_map (α β γ ε : Type) (v : α) (f g : α → β) (f2 : β → γ) (e : ε) :
    (Maybe.Some v).map f = Maybe.Some (f v) ∧
    ((Maybe.Some v).map f).unwrap = Except.ok (f v) ∧
    (Maybe.None : Maybe α).map f = Maybe.None ∧
    (Maybe.None : Maybe α).map f = Maybe.None.map g ∧
    (Result.Err e : Result α ε).map f = Result.Err e ∧
    ((Result.Err e : Result α ε).map f).map f2 = Result.Err e :=
  ⟨rfl, rfl, rfl, rfl, rfl, rfl⟩

/-- Claim C4: monad left identity. `Some v |>.flatMap g = g v` with no
double wrapping; `None.flatMap g` is `None` and does not depend on `g`
(never invoked); likewise `Ok v |>.flatMap gr = gr v`, and
`Err e |>.flatMap gr` is `Err e` independently of `gr`. -/
theorem c4_flatMap (α β ε : Type) (v : α) (g h : α → Maybe β)
    (gr hr : α → Result β ε) (e : ε) :
    (Maybe.Some v).flatMap g = g v ∧
    (Maybe.None : Maybe α).flatMap g = Maybe.None ∧
    (Maybe.None : Maybe α).flatMap g = Maybe.None.flatMap h ∧
    (Result.Ok v : Result α ε).flatMap gr = gr v ∧
    (Result.Err e : Result α ε).flatMap gr = Result.Err e ∧
    (Result.Err e : Result α ε).flatMap gr = (Result.Err e).flatMap hr :=
  ⟨rfl, rfl, rfl, rfl, rfl, rfl⟩

/-- Claim C5: the Result-to-Maybe conversions. `Ok v |>.ok = Some v`,
`Ok v |>.err = None`, `Err e |>.ok = None`, `Err e |>.err = Some e`. -/
theorem c5_conversions (α ε : Type) (v : α) (e : ε) :
    (Result.Ok v : Result α ε).ok = Maybe.Some v ∧
    (Result.Ok v : Result α ε).err = Maybe.None ∧
    (Result.Err e : Result α ε).ok = Maybe.None ∧
    (Result.Err e : Result α ε).err = Maybe.Some e :=
  ⟨rfl, rfl, rfl, rfl⟩

/-- Claim C6: `Err e |>.mapErr f` is a Failure holding `f e`, so its error
projection unwraps to `f e`; `Ok v |>.mapErr f` is passed through
unchanged as a Success still holding `v`, so it unwraps to `v`, and on a
Success the result does not depend on `f` (not invoked). -/
theorem c6_mapErr (α ε φ : Type) (v : α) (e : ε) (f g : ε → φ)
    (toStr : φ → String) :
    (Result.Err e : Result α ε).mapErr f = Result.Err (f e) ∧
    ((Result.Err e : Result α ε).mapErr f).err.unwrap = Except.ok (f e) ∧
    (Result.Ok v : Result α ε).mapErr f = Result.Ok v ∧
    ((Result.Ok v : Result α ε).mapErr f).unwrap toStr = Except.ok v ∧
    (Result.Ok v : Result α ε).mapErr f = (Result.Ok v).mapErr g :=
  ⟨rfl, rfl, rfl, rfl, rfl⟩

/-- Claim C7: `Result.contains` tests the channel selected by the
receiver's variant: `Ok v |>.contains x` is true iff `x = v` and
`Err e |>.contains y` is true iff `y = e` (under a lawful host equality);
concretely `Err 42 |>.contains 42` is true and `Err 42 |>.contains 7` is
false. -/
theorem c7_contains (α ε : Type) [BEq α] [BEq ε] [LawfulBEq α] [LawfulBEq ε]
    (v x : α) (e y : ε) :
    ((Result.Ok v : Result α ε).contains (Sum.inl x) = true ↔ x = v) ∧
    ((Result.Err e : Result α ε).contains (Sum.inr y) = true ↔ y = e) ∧
    (Result.Err 42 : Result Nat Nat).contains (Sum.inr 42) = true ∧
    (Result.Err 42 : Result Nat Nat).contains (Sum.inr 7) = false := by
  refine ⟨?_, ?_, by decide, by decide⟩
  · show (v == x) = true ↔ x = v
    rw [beq_iff_eq]
    exact eq_comm
  · show (e == y) = true ↔ y = e
    rw [beq_iff_eq]
    exact eq_comm

/-- Witness for C7 at concrete inputs, the lawful-equality hypotheses
discharged by the `Nat` instances. -/
theorem c7_contains_witness :
    ((Result.Ok 5 : Result Nat Nat).contains (Sum.inl 5) = true ↔
      (5 : Nat) = 5) ∧
    ((Result.Err 3 : Result Nat Nat).contains (Sum.inr 3) = true ↔
      (3 : Nat) = 3) ∧
    (Result.Err 42 : Result Nat Nat).contains (Sum.inr 42) = true ∧
    (Result.Err 42 : Result Nat Nat).contains (Sum.inr 7) = false :=
  c7_contains Nat Nat 5 5 3 3

/-- Claim C8: the library provides free helpers building the non-empty
variant from a value (`some`, `ok`) and the empty variant with no argument
(`none`, `err` takes the error payload); each helper applied to a value
equals direct construction of the corresponding variant. The helpers are
modelled from the spec because src/index.ts re-exports them while their
defining module content is absent from the provided sources. -/
theorem c8_helpers (α ε : Type) (v : α) (e : ε) :
    some v = Maybe.Some v ∧
    none () = (Maybe.None : Maybe α) ∧
    ok v = (Result.Ok v : Result α ε) ∧
    err e = (Result.Err e : Result α ε) :=
  ⟨rfl, rfl, rfl, rfl⟩

/-- Claim C9: `isNone` is exactly the negation of `isSome` and `isErr`
exactly the negation of `isOk`; consequently `Result.match` always
dispatches to exactly one of its two handlers and the implicit
fall-through (the `Option.none` result modelling `undefined`) is
unreachable: the result is always `Option.some` of the handler selected by
the variant. -/
theorem c9_discriminators (α β ε φ : Type) (m : Maybe α) (r : Result α ε)
    (matcher : ResultMatcher α β ε φ) :
    m.isNone = !m.isSome ∧
    r.isErr = !r.isOk ∧
    r.matchWith matcher = Option.some
      (match r with
       | Result.Ok v  => Sum.inl (matcher.Ok v)
       | Result.Err e => Sum.inr (matcher.Err e)) := by
  refine ⟨rfl, rfl, ?_⟩
  cases r <;> rfl

/-- Claim C10: `contains` uses the host strict equality, not structural
equality: `Some v |>.contains x` equals `v === x` (and likewise on the
success channel of `Result`), so an object candidate that is structurally
equal to the payload but a distinct reference yields false; `Some v
|>.contains v` holds whenever `v` is strict-equal to itself; and
`None.contains x` is false for every candidate. -/
theorem c10_strict_equality (v x : JSVal) (h : jsStrictEq v v = true) :
    (Maybe.Some v).contains x = jsStrictEq v x ∧
    (Result.Ok v : Result JSVal JSVal).contains (Sum.inl x) =
      jsStrictEq v x ∧
    (Maybe.Some v).contains v = true ∧
    Maybe.None.contains x = false ∧
    jsStructEq (JSVal.obj 0 [1, 2]) (JSVal.obj 1 [1, 2]) = true ∧
    (Maybe.Some (JSVal.obj 0 [1, 2])).contains (JSVal.obj 1 [1, 2]) =
      false :=
  ⟨rfl, rfl, h, rfl, by decide, by decide⟩

/-- Witness for C10 at concrete inputs: the self-strict-equality
hypothesis holds for the number 3. -/
theorem c10_strict_equality_witness :
    jsStrictEq (JSVal.num 3) (JSVal.num 3) = true ∧
    ((Maybe.Some (JSVal.num 3)).contains (JSVal.num 5) =
        jsStrictEq (JSVal.num 3) (JSVal.num 5) ∧
     (Result.Ok (JSVal.num 3) : Result JSVal JSVal).contains
        (Sum.inl (JSVal.num 5)) = jsStrictEq (JSVal.num 3) (JSVal.num 5) ∧
     (Maybe.Some (JSVal.num 3)).contains (JSVal.num 3) = true ∧
     Maybe.None.contains (JSVal.num 5) = false ∧
     jsStructEq (JSVal.obj 0 [1, 2]) (JSVal.obj 1 [1, 2]) = true ∧
     (Maybe.Some (JSVal.obj 0 [1, 2])).contains (JSVal.obj 1 [1, 2]) =
       false) :=
  ⟨by decide, c10_strict_equality (JSVal.num 3) (JSVal.num 5) (by decide)⟩

end Picofp
